import Mathlib

/-!
Verification of the acquisition / decode-context / session engine of the
`witrn_pd_sniffer` repository (file `witrn_pd_sniffer.py`).

Conventions of the embedding:
* Python floats (wall-clock seconds, volts, amps) are modelled as exact
  rationals `ℚ`; the code only adds, subtracts, multiplies and compares them.
* Raw frames are byte lists `List ℕ`.
* The byte-protocol decoder (`witrnhid.WITRN_DEV` / `auto_unpack`, `is_pdo`,
  `is_rdo`, `provide_ext`) is an external library, not part of this
  repository; it is embedded as an abstract `DecoderAdapter` record of pure
  functions, over which all theorems are quantified.
* The bounded multiprocessing queues are modelled as unbounded output lists
  (no claim below concerns the drop-on-full policy), and the `deque(maxlen=…)`
  plot buffers as unbounded lists (no claim concerns their capacity).
-/

namespace WitrnPD

/-- ASCII lower-casing of one character, the relevant fragment of Python
`str.lower()` for the error vocabulary check. -/
def lowerChar (c : Char) : Char :=
  if 65 ≤ c.toNat ∧ c.toNat ≤ 90 then Char.ofNat (c.toNat + 32) else c

/-- Lower-cased character list of a string (Python `str(e).lower()`). -/
def lowerStr (s : String) : List Char := s.data.map lowerChar

/-- Boolean list-prefix test (used to build the substring test below). -/
def listPrefixOf : List Char → List Char → Bool
  | [], _ => true
  | _ :: _, [] => false
  | a :: as, b :: bs => a = b && listPrefixOf as bs

/-- Boolean substring (contiguous sublist) test, Python `pat in s`. -/
def listInfixOf (p : List Char) : List Char → Bool
  | [] => listPrefixOf p []
  | b :: bs => listPrefixOf p (b :: bs) || listInfixOf p bs

/-- Fatal-error vocabulary check of the worker, `witrn_pd_sniffer.py:230-231`:
`err_text = str(e).lower()` followed by `if 'read error' in err_text`. -/
def isFatalError (m : String) : Bool := listInfixOf "read error".data (lowerStr m)

/-- The rolling decode context threaded through `auto_unpack`: the last
capability (PDO), extended-context, and request (RDO) messages, matching the
`last_pdo` / `last_ext` / `last_rdo` variables of `import_csv`
(`witrn_pd_sniffer.py:2144-2146`). -/
structure DecodeCtx (Pkg : Type) where
  lastPdo : Option Pkg
  lastExt : Option Pkg
  lastRdo : Option Pkg
  deriving DecidableEq

/-- The all-empty decode context (fresh session / fresh `WITRN_DEV`). -/
def emptyCtx {Pkg : Type} : DecodeCtx Pkg := ⟨none, none, none⟩

/-- Modelled from the spec: the byte-protocol decoder (`witrnhid` module:
`WITRN_DEV.auto_unpack`, `pkg.field()`, `is_pdo`, `is_rdo`, `provide_ext`,
and the field extractors read off the decoded tree) is an external library
that is not part of this repository.  Per spec §6 the adapter is a pure
function of the 64-byte frame and the rolling decode context, returning a
decode failure or a timestamp string plus decoded message; per §2 it also
supplies the classification (`pkg.field()`) and the context-providing
predicates.  All theorems below are quantified over an arbitrary adapter. -/
structure DecoderAdapter (Pkg : Type) where
  decode : List ℕ → DecodeCtx Pkg → Except String (String × Pkg)
  classOf : Pkg → String
  isPdo : Pkg → Bool
  isRdo : Pkg → Bool
  provideExt : Pkg → Bool
  currentVal : Pkg → Option ℚ
  voltageVal : Pkg → Option ℚ
  cc1Val : Pkg → Option ℚ
  cc2Val : Pkg → Option ℚ
  dpVal : Pkg → Option ℚ
  dnVal : Pkg → Option ℚ
  sopVal : Pkg → String
  revVal : Pkg → Option String
  pprVal : Pkg → Option String
  pdrVal : Pkg → Option String
  msgTypeVal : Pkg → Option String

variable {Pkg : Type}

/-- Decode-context update, from the import path `witrn_pd_sniffer.py:2184-2189`:
`if is_pdo(pkg): last_pdo = pkg`, `if is_rdo(pkg): last_rdo = pkg`,
`if provide_ext(pkg): last_ext = pkg`; fields not updated keep their value,
and several predicates may fire for the same message. -/
def ctxUpdate (A : DecoderAdapter Pkg) (c : DecodeCtx Pkg) (pkg : Pkg) : DecodeCtx Pkg :=
  let c1 := if A.isPdo pkg then { c with lastPdo := some pkg } else c
  let c2 := if A.isRdo pkg then { c1 with lastRdo := some pkg } else c1
  if A.provideExt pkg then { c2 with lastExt := some pkg } else c2

/-- Import-payload normalization, `witrn_pd_sniffer.py:2171-2175`: a payload
longer than 64 bytes is truncated to its first 64 bytes, a shorter one is
zero-padded at the tail to 64 bytes. -/
def normalize64 (b : List ℕ) : List ℕ :=
  if b.length > 64 then b.take 64
  else b ++ List.replicate (64 - b.length) 0

/-- The live decode trace of the acquisition worker
(`data_collection_worker`, `witrn_pd_sniffer.py:112-240`): each frame read
from the device is handed to `k2.auto_unpack()` and classified by
`pkg.field()`; a decode failure is a non-fatal error — the loop continues and
the context is unchanged.  The call `k2.auto_unpack()` carries the rolling
context internally; Modelled from the spec (§4.2, §6): that internal context
is seeded empty on `WITRN_DEV()` construction and evolves by the same
capability/request/extended update as the explicit import path, i.e. by
`ctxUpdate`. -/
def liveDecode (A : DecoderAdapter Pkg) : DecodeCtx Pkg → List (List ℕ) → List (String × Pkg)
  | _, [] => []
  | c, b :: bs =>
    match A.decode b c with
    | .error _ => liveDecode A c bs
    | .ok (_, pkg) => (A.classOf pkg, pkg) :: liveDecode A (ctxUpdate A c pkg) bs

/-- The stored-frame decode trace of the import path (`import_csv`,
`witrn_pd_sniffer.py:2144-2196`): each row's payload is normalized to exactly
64 bytes, decoded by `auto_unpack(data_bytes, last_pdo, last_ext, last_rdo)`
against the explicitly threaded rolling context, which is then updated by
`is_pdo` / `is_rdo` / `provide_ext`; a row whose decode raises is counted
failed and skipped with the context unchanged. -/
def replayDecode (A : DecoderAdapter Pkg) : DecodeCtx Pkg → List (List ℕ) → List (String × Pkg)
  | _, [] => []
  | c, b :: bs =>
    match A.decode (normalize64 b) c with
    | .error _ => replayDecode A c bs
    | .ok (_, pkg) => (A.classOf pkg, pkg) :: replayDecode A (ctxUpdate A c pkg) bs

theorem normalize64_of_length_eq (b : List ℕ) (h : b.length = 64) : normalize64 b = b := by
  simp [normalize64, h]

/-- One electrical-telemetry event as enqueued on `iv_queue`
(`witrn_pd_sniffer.py:157-169`): the measured values, the recomputed power,
and the two consumer flags `update_plot` / `update_iv_info`. -/
structure IVData where
  timestamp : ℚ
  voltage : ℚ
  current : ℚ
  power : ℚ
  cc1 : ℚ
  cc2 : ℚ
  dp : ℚ
  dn : ℚ
  updatePlot : Bool
  updateIvInfo : Bool
  deriving DecidableEq

/-- One decoded PD control message as enqueued on `data_queue`
(`witrn_pd_sniffer.py:211-225`). -/
structure PDData (Pkg : Type) where
  timestamp : String
  timeSec : ℚ
  sop : String
  rev : Option String
  ppr : Option String
  pdr : Option String
  msgType : Option String
  data : Pkg
  isPdo : Bool
  isRdo : Bool
  lastPdo : Option Pkg
  lastRdo : Option Pkg
  deriving DecidableEq

/-- An entry placed on the control channel (`data_queue`): either a decoded
message dict or an error-sentinel dict (`witrn_pd_sniffer.py:234`, `245`). -/
inductive PDEntry (Pkg : Type) where
  | msg (d : PDData Pkg)
  | errorSentinel (e : String)
  deriving DecidableEq

/-- True exactly on decoded-message entries of the control channel. -/
def PDEntry.isMsg {Pkg : Type} : PDEntry Pkg → Bool
  | .msg _ => true
  | .errorSentinel _ => false

/-- The mutable state of one acquisition-worker loop
(`witrn_pd_sniffer.py:104-107`): the worker-local `last_pdo` / `last_rdo`
snapshots shipped with each control message, the `last_general_timestamp`
of the 10 Hz gate, and the rolling decode context held inside the
`WITRN_DEV` instance `k2` (Modelled from the spec, see `liveDecode`). -/
structure WorkerState (Pkg : Type) where
  ctx : DecodeCtx Pkg
  lastPdo : Option Pkg
  lastRdo : Option Pkg
  lastGeneralTimestamp : ℚ
  deriving DecidableEq

/-- The worker state at loop entry: fresh `WITRN_DEV()` (empty internal
context), `last_pdo = None`, `last_rdo = None`, `last_general_timestamp = 0.0`
(`witrn_pd_sniffer.py:104-107`). -/
def initWorkerState {Pkg : Type} : WorkerState Pkg := ⟨emptyCtx, none, none, 0⟩

/-- One iteration's input to the worker loop: either a raw frame together
with the two wall-clock reads of that iteration (`current_time` at line 117
and `now` at line 151), or an exception raised by `read_data`. -/
inductive WorkerItem where
  | frame (bytes : List ℕ) (currentTime : ℚ) (now : ℚ)
  | exn (msg : String)
  deriving DecidableEq

/-- Output of one worker-loop iteration: the successor state, the telemetry
events enqueued, the control-channel entries enqueued, the retry delays slept
(seconds), and whether the loop breaks. -/
structure StepOut (Pkg : Type) where
  state : WorkerState Pkg
  iv : List IVData
  dq : List (PDEntry Pkg)
  delays : List ℚ
  stop : Bool
  deriving DecidableEq

/-- The PD-field extraction shared verbatim by the worker
(`witrn_pd_sniffer.py:181-200`) and the import path (2196-2215): `sop`,
`rev`, `ppr` (with the `'rved'` value mapped to `None`), `pdr`, `msg_type`;
each `try/except` that falls back to `None` is the extractor's `Option`. -/
def extractPD (A : DecoderAdapter Pkg) (pkg : Pkg) :
    String × Option String × Option String × Option String × Option String :=
  let ppr := match A.pprVal pkg with
    | some s => if s = "rved" then none else some s
    | none => none
  (A.sopVal pkg, A.revVal pkg, ppr, A.pdrVal pkg, A.msgTypeVal pkg)

/-- The error-classification step of the worker loop
(`witrn_pd_sniffer.py:229-240`): an exception whose lower-cased text contains
`'read error'` emits one `device_disconnected` sentinel on the control
channel and breaks the loop; any other exception sleeps `0.01` s and
continues, with no output and no state change. -/
def errorStep (s : WorkerState Pkg) (m : String) : StepOut Pkg :=
  if isFatalError m then ⟨s, [], [PDEntry.errorSentinel "device_disconnected"], [], true⟩
  else ⟨s, [], [], [1/100], false⟩

/-- One iteration of `data_collection_worker` (`witrn_pd_sniffer.py:112-240`)
given the shared pause flag value read in that iteration.  A frame is read
and decoded unconditionally (lines 114-116, decoding also rolls the adapter's
internal context, see `liveDecode`); a `general` package is always processed
into an `iv_queue` event whose `update_plot` is `True` and whose
`update_iv_info` is the 100 ms gate (lines 119-174); a `pd` package is
skipped entirely when paused (lines 176-179) and otherwise enqueued with the
updated `last_pdo` / `last_rdo` snapshots (lines 181-227); any other
classification is ignored. -/
def workerStep (A : DecoderAdapter Pkg) (s : WorkerState Pkg) (pause : Bool) :
    WorkerItem → StepOut Pkg
  | .exn m => errorStep s m
  | .frame bytes t now =>
    match A.decode bytes s.ctx with
    | .error m => errorStep s m
    | .ok (ts, pkg) =>
      let s1 : WorkerState Pkg := { s with ctx := ctxUpdate A s.ctx pkg }
      if A.classOf pkg = "general" then
        let curr := (A.currentVal pkg).getD 0
        let volt := (A.voltageVal pkg).getD 0
        let pow := |curr * volt|
        let c1 := (A.cc1Val pkg).getD 0
        let c2 := (A.cc2Val pkg).getD 0
        let dpv := (A.dpVal pkg).getD 0
        let dnv := (A.dnVal pkg).getD 0
        let updIv := decide (now - s1.lastGeneralTimestamp ≥ 1/10)
        ⟨{ s1 with lastGeneralTimestamp := if updIv then now else s1.lastGeneralTimestamp },
          [⟨t, volt, curr, pow, c1, c2, dpv, dnv, true, updIv⟩], [], [], false⟩
      else if A.classOf pkg = "pd" then
        if pause then ⟨s1, [], [], [], false⟩
        else
          let f := extractPD A pkg
          let nPdo := if A.isPdo pkg then some pkg else s1.lastPdo
          let nRdo := if A.isRdo pkg then some pkg else s1.lastRdo
          ⟨{ s1 with lastPdo := nPdo, lastRdo := nRdo }, [],
            [PDEntry.msg ⟨ts, t, f.1, f.2.1, f.2.2.1, f.2.2.2.1, f.2.2.2.2, pkg,
              A.isPdo pkg, A.isRdo pkg, nPdo, nRdo⟩], [], false⟩
      else ⟨s1, [], [], [], false⟩

/-- Accumulated output of a worker run over a list of iterations. -/
structure WorkerOut (Pkg : Type) where
  ivQueue : List IVData
  dataQueue : List (PDEntry Pkg)
  delays : List ℚ
  final : WorkerState Pkg
  stopped : Bool
  deriving DecidableEq

/-- The worker loop over a finite schedule of iterations, each carrying the
pause-flag value observed in that iteration; a fatal error breaks the loop
and the remaining schedule is never processed. -/
def workerRun (A : DecoderAdapter Pkg) (s : WorkerState Pkg) :
    List (Bool × WorkerItem) → WorkerOut Pkg
  | [] => ⟨[], [], [], s, false⟩
  | (p, it) :: rest =>
    let o := workerStep A s p it
    if o.stop then ⟨o.iv, o.dq, o.delays, o.state, true⟩
    else
      let r := workerRun A o.state rest
      ⟨o.iv ++ r.ivQueue, o.dq ++ r.dataQueue, o.delays ++ r.delays, r.final, r.stopped⟩

/-- One row of the control-message log (`class DataItem`,
`witrn_pd_sniffer.py:255-265`). -/
structure DataItem (Pkg : Type) where
  index : ℕ
  timestamp : String
  sop : String
  rev : Option String
  ppr : Option String
  pdr : Option String
  msgType : Option String
  data : Pkg
  deriving DecidableEq

/-- The session-controller state of `WITRNGUI` restricted to the fields the
acquisition/session logic reads and writes: connection and pause flags, the
connection-confirmation latch pair, the import-mode flag, the developer-mode
(easter-egg) flag gating the chart, the shared pause flag and worker process,
the control-message log with its quick-status snapshots, and the telemetry
plot buffers with their rebasing origin and marker events.  Purely visual
state (widgets, status strings, artists) is omitted, except that
`statusConnected` records whether the "device connected" status notification
has been surfaced since the current connection attempt began. -/
structure GuiState (Pkg : Type) where
  deviceOpen : Bool
  isPaused : Bool
  awaitingAck : Bool
  autostart : Bool
  importMode : Bool
  eggActivated : Bool
  statusConnected : Bool
  pauseFlag : Option ℕ
  worker : Option (WorkerState Pkg)
  dataList : List (DataItem Pkg)
  lastPdo : Option Pkg
  lastRdo : Option Pkg
  plotTimes : List ℚ
  plotVoltage : List ℚ
  plotCurrent : List ℚ
  plotStartTime : Option ℚ
  markerEvents : List (ℚ × String)
  deriving DecidableEq

/-- `WITRNGUI.add_data_item` (`witrn_pd_sniffer.py:1412-1433`): unless forced,
a new row is appended only while not paused; a missing timestamp falls back
to the current wall-clock string `nowStr`; the row index is the new length. -/
def addDataItem (g : GuiState Pkg) (nowStr : String) (sop : String)
    (rev ppr pdr msgType : Option String) (data : Pkg)
    (timestamp : Option String) (force : Bool) : GuiState Pkg :=
  if ¬force ∧ g.isPaused then g
  else
    { g with dataList := g.dataList ++
        [⟨g.dataList.length + 1, timestamp.getD nowStr, sop, rev, ppr, pdr, msgType, data⟩] }

/-- `WITRNGUI._append_plot_point` (`witrn_pd_sniffer.py:1214-1226`): the first
sample fixes the rebasing origin `plot_start_time`; every sample is stored
with `rel_time = t_sec - plot_start_time`. -/
def appendPlotPoint (g : GuiState Pkg) (t v i : ℚ) : GuiState Pkg :=
  let start := g.plotStartTime.getD t
  { g with
    plotStartTime := some start
    plotTimes := g.plotTimes ++ [t - start]
    plotVoltage := g.plotVoltage ++ [v]
    plotCurrent := g.plotCurrent ++ [i] }

/-- `WITRNGUI._append_marker_event` (`witrn_pd_sniffer.py:1228-1239`): a
marker of kind `'pdo'` or `'rdo'` is recorded with the rebased time, but only
when `plot_start_time` is already set; otherwise it is silently discarded. -/
def appendMarkerEvent (g : GuiState Pkg) (t : ℚ) (kind : String) : GuiState Pkg :=
  if kind ≠ "pdo" ∧ kind ≠ "rdo" then g
  else
    match g.plotStartTime with
    | none => g
    | some o => { g with markerEvents := g.markerEvents ++ [(t - o, kind)] }

/-- `WITRNGUI._reset_plot` (`witrn_pd_sniffer.py:1141-1167`): clear the three
plot buffers, unset the rebasing origin, clear the marker events. -/
def resetPlot (g : GuiState Pkg) : GuiState Pkg :=
  { g with plotTimes := [], plotVoltage := [], plotCurrent := [],
           plotStartTime := none, markerEvents := [] }

/-- `WITRNGUI.clear_list` with `ask_user=False`
(`witrn_pd_sniffer.py:2340-2360`): empty the log, clear the quick-status
snapshots, leave import mode. -/
def clearList (g : GuiState Pkg) : GuiState Pkg :=
  { g with dataList := [], lastPdo := none, lastRdo := none, importMode := false }

/-- `WITRNGUI._stop_collection_process` (`witrn_pd_sniffer.py:1691-1729`):
the worker process is joined/terminated and the shared primitives dropped. -/
def stopCollection (g : GuiState Pkg) : GuiState Pkg :=
  { g with worker := none, pauseFlag := none }

/-- `WITRNGUI.connect_device` (`witrn_pd_sniffer.py:2245-2296`).  When
disconnected: a non-empty log requires the operator's confirmation
(`confirm`) and is then cleared; the state becomes open/paused/awaiting-ack
with the auto-start latch off; a fresh worker process is started with the
shared pause flag at 1 (`start_data_thread_if_needed`, lines 1435-1468, and
`data_collection_worker` entry, lines 104-107); the plot is reset only when
the developer mode (easter egg) is active (lines 2266-2271).  When already
open: the collection process is stopped and the state falls back to
disconnected/paused. -/
def connectDevice (g : GuiState Pkg) (confirm : Bool) : GuiState Pkg :=
  if ¬g.deviceOpen then
    if ¬g.dataList.isEmpty ∧ ¬confirm then g
    else
      let g1 := if ¬g.dataList.isEmpty then clearList g else g
      let g2 := { g1 with
        deviceOpen := true, isPaused := true, awaitingAck := true,
        autostart := false, statusConnected := false,
        worker := some initWorkerState, pauseFlag := some 1 }
      if g2.eggActivated then resetPlot g2 else g2
  else
    let g1 := stopCollection g
    { g1 with lastPdo := none, lastRdo := none, deviceOpen := false,
              isPaused := true, awaitingAck := false, autostart := false,
              statusConnected := false }

/-- `WITRNGUI._handle_device_disconnect` (`witrn_pd_sniffer.py:1619-1646`):
pause, mark closed, drop the ack/auto-start latches, clear the quick-status
snapshots, surface the disconnected status, stop the collection process. -/
def handleDeviceDisconnect (g : GuiState Pkg) : GuiState Pkg :=
  stopCollection { g with
    isPaused := true, deviceOpen := false, awaitingAck := false,
    autostart := false, lastPdo := none, lastRdo := none,
    statusConnected := false }

/-- `WITRNGUI._handle_connection_failed` (`witrn_pd_sniffer.py:1657-1689`):
stop the collection process and fall back to the disconnected state. -/
def handleConnectionFailed (g : GuiState Pkg) : GuiState Pkg :=
  stopCollection { g with
    deviceOpen := false, isPaused := true, awaitingAck := false,
    autostart := false, statusConnected := false }

/-- `WITRNGUI.pause_collection` (`witrn_pd_sniffer.py:2305-2338`).  Resuming
while the connection is still unconfirmed only sets the auto-start latch;
resuming in import mode requires the operator's confirmation to clear the
imported list first; otherwise resume/pause toggles `is_paused` and writes
the shared pause flag. -/
def pauseCollection (g : GuiState Pkg) (confirm : Bool) : GuiState Pkg :=
  if g.isPaused then
    if g.awaitingAck then { g with autostart := true }
    else if g.importMode ∧ ¬g.dataList.isEmpty ∧ ¬confirm then g
    else
      let g1 := if g.importMode then { (if ¬g.dataList.isEmpty then clearList g else g) with importMode := false } else g
      { g1 with isPaused := false, pauseFlag := g1.pauseFlag.map (fun _ => 0) }
  else
    { g with isPaused := true, pauseFlag := g.pauseFlag.map (fun _ => 1) }

/-- One event drained from the two channels by the consumer loop: an error
dict from the control channel, a decoded PD message dict, or a telemetry
dict. -/
inductive QueueEvent (Pkg : Type) where
  | pdErr (e : String)
  | pd (d : PDData Pkg)
  | iv (d : IVData)
  deriving DecidableEq

/-- The connection-confirmation block run on the first drained non-error
event of either channel (`witrn_pd_sniffer.py:1498-1518` and 1559-1579):
if still awaiting the ack, surface "device connected", drop the latch, and
if auto-start was requested, clear the pause flag and start collecting. -/
def ackUpdate (g : GuiState Pkg) : GuiState Pkg :=
  if g.deviceOpen ∧ g.awaitingAck then
    let g1 := { g with statusConnected := true, awaitingAck := false }
    if g1.autostart then
      { g1 with isPaused := false, pauseFlag := g1.pauseFlag.map (fun _ => 0),
                autostart := false }
    else g1
  else g

/-- One event processed by `WITRNGUI._consume_queue_data`
(`witrn_pd_sniffer.py:1474-1609`).  Error dicts are checked first and
dispatched to the disconnect / connection-failed handlers without touching
the ack latch; a PD message first confirms the connection, is appended to
the log (not forced, so dropped while paused), and updates the quick-status
snapshot and marker for a capability/request message; a telemetry event
first confirms the connection and appends a plot point when flagged (the
10 Hz readout display is purely visual and omitted). -/
def consumeStep (g : GuiState Pkg) (nowStr : String) : QueueEvent Pkg → GuiState Pkg
  | .pdErr e =>
    if e = "device_disconnected" then handleDeviceDisconnect g
    else if listPrefixOf "connection_failed".data e.data then handleConnectionFailed g
    else g
  | .pd d =>
    let g1 := ackUpdate g
    let g2 := addDataItem g1 nowStr d.sop d.rev d.ppr d.pdr d.msgType d.data
      (some d.timestamp) false
    let g3 := if d.isPdo then
        appendMarkerEvent { g2 with lastPdo := d.lastPdo } d.timeSec "pdo"
      else g2
    if d.isRdo then
      appendMarkerEvent { g3 with lastRdo := d.lastRdo } d.timeSec "rdo"
    else g3
  | .iv d =>
    let g1 := ackUpdate g
    if d.updatePlot then appendPlotPoint g1 d.timestamp d.voltage d.current else g1

/-- The consumer loop over a finite drain order of events from the two
channels (within each channel the order is the enqueue order). -/
def consumeRun (g : GuiState Pkg) (nowStr : String) : List (QueueEvent Pkg) → GuiState Pkg
  | [] => g
  | ev :: evs => consumeRun (consumeStep g nowStr ev) nowStr evs

/-! Concrete fixtures used by the witnesses: a tiny message type and a
decoder-adapter instance dispatching on the first frame byte. -/

/-- A concrete decoded-message type for witnesses. -/
structure TestPkg where
  cls : String
  pdo : Bool
  rdo : Bool
  ext : Bool
  volt : ℚ
  curr : ℚ
  deriving DecidableEq

/-- A concrete telemetry package: 5.00 V, 1.50 A. -/
def generalPkg : TestPkg := ⟨"general", false, false, false, 5, 3/2⟩

/-- A concrete capability-providing (PDO) control package. -/
def pdoPkg : TestPkg := ⟨"pd", true, false, false, 0, 0⟩

/-- A concrete request-providing (RDO) control package. -/
def rdoPkg : TestPkg := ⟨"pd", false, true, false, 0, 0⟩

/-- A concrete adapter instance for witnesses: byte 0 opens a telemetry
frame, byte 1 a capability frame, byte 2 a request frame, anything else is a
decode failure. -/
def testAdapter : DecoderAdapter TestPkg :=
  { decode := fun b _ =>
      match b.head? with
      | some 0 => .ok ("ts", generalPkg)
      | some 1 => .ok ("ts", pdoPkg)
      | some 2 => .ok ("ts", rdoPkg)
      | _ => .error "unpack failed"
    classOf := TestPkg.cls
    isPdo := TestPkg.pdo
    isRdo := TestPkg.rdo
    provideExt := TestPkg.ext
    currentVal := fun p => some p.curr
    voltageVal := fun p => some p.volt
    cc1Val := fun _ => some 0
    cc2Val := fun _ => some 0
    dpVal := fun _ => some 0
    dnVal := fun _ => some 0
    sopVal := fun _ => "SOP"
    revVal := fun _ => none
    pprVal := fun _ => none
    pdrVal := fun _ => none
    msgTypeVal := fun _ => some "Source_Capabilities" }

/-- A 64-byte telemetry witness frame. -/
def frameGeneral : List ℕ := List.replicate 64 0

/-- A 64-byte capability witness frame. -/
def framePdo : List ℕ := 1 :: List.replicate 63 0

/-! Claim theorems. -/

/-- C1.  Replay parity: for every sequence of 64-byte frames, the live
worker decode path (`data_collection_worker`: read, decode with rolling
context seeded empty, classify) and the stored-frame import path
(`import_csv`: normalize each row to 64 bytes, decode with rolling context
seeded empty) produce identical ordered lists of (classification,
DecodedMessage) pairs. -/
theorem replay_parity (A : DecoderAdapter Pkg) (F : List (List ℕ))
    (h64 : ∀ b ∈ F, b.length = 64) :
    liveDecode A emptyCtx F = replayDecode A emptyCtx F := by
  have key : ∀ (G : List (List ℕ)), (∀ b ∈ G, b.length = 64) →
      ∀ c : DecodeCtx Pkg, liveDecode A c G = replayDecode A c G := by
    intro G
    induction G with
    | nil => intro _ c; rfl
    | cons b bs ih =>
      intro h c
      have hb : b.length = 64 := h b (by simp)
      have hbs : ∀ x ∈ bs, x.length = 64 := fun x hx => h x (by simp [hx])
      simp only [liveDecode, replayDecode, normalize64_of_length_eq b hb]
      cases hd : A.decode b c with
      | error m => exact ih hbs c
      | ok v => simp [ih hbs]
  exact key F h64 emptyCtx

/-- Witness for C1 at the concrete two-frame sequence
`[frameGeneral, framePdo]` under `testAdapter`. -/
theorem replay_parity_witness :
    (∀ b ∈ [frameGeneral, framePdo], b.length = 64) ∧
    liveDecode testAdapter emptyCtx [frameGeneral, framePdo] =
      replayDecode testAdapter emptyCtx [frameGeneral, framePdo] := by
  have h : ∀ b ∈ [frameGeneral, framePdo], b.length = 64 := by
    intro b hb
    simp only [List.mem_cons, List.not_mem_nil, or_false] at hb
    rcases hb with h1 | h1 <;> simp [h1, frameGeneral, framePdo]
  exact ⟨h, replay_parity testAdapter [frameGeneral, framePdo] h⟩

/-- C6.  Frame normalization in the import path: the frame handed to the
decoder is always exactly 64 bytes; a payload of at most 64 bytes keeps its
original bytes followed by zero padding, and a longer payload is truncated
to its first 64 bytes. -/
theorem frame_normalization (b : List ℕ) :
    (normalize64 b).length = 64 ∧
    (b.length ≤ 64 → normalize64 b = b ++ List.replicate (64 - b.length) 0) ∧
    (64 < b.length → normalize64 b = b.take 64) := by
  refine ⟨?_, ?_, ?_⟩
  · by_cases h : b.length > 64
    · simp [normalize64, h]; omega
    · simp [normalize64, h]; omega
  · intro h
    have : ¬b.length > 64 := by omega
    simp [normalize64, this]
  · intro h
    simp [normalize64, h]

/-- Witness for C6 at the concrete payloads of the claim: the 2-byte payload
`[17, 34]` yields those two bytes followed by 62 zero bytes, and a 70-byte
payload yields exactly its first 64 bytes. -/
theorem frame_normalization_witness :
    normalize64 [17, 34] = [17, 34] ++ List.replicate 62 0 ∧
    normalize64 (List.replicate 70 9) = (List.replicate 70 9).take 64 := by
  constructor
  · simpa using (frame_normalization [17, 34]).2.1 (by simp)
  · exact (frame_normalization (List.replicate 70 9)).2.2 (by simp)

/-- C2.  While the shared pause flag is set, a control (`pd`) frame is
dropped before any classification side-effects — nothing is enqueued and the
worker's quick-status snapshots are untouched — except that the rolling
decode context is still updated (the frame is decoded before the pause check,
`witrn_pd_sniffer.py:114-116` versus 178-179): whenever the paused frame
provides capability/request/extended context the corresponding context slot
now holds it, and the remainder of the run — in particular the next unpaused
message — decodes against exactly that updated context. -/
theorem paused_control_context (A : DecoderAdapter Pkg) (s : WorkerState Pkg)
    (b : List ℕ) (t now : ℚ) (ts : String) (pkg : Pkg)
    (hdec : A.decode b s.ctx = Except.ok (ts, pkg))
    (hpd : A.classOf pkg = "pd") :
    workerStep A s true (WorkerItem.frame b t now) =
      ⟨{ s with ctx := ctxUpdate A s.ctx pkg }, [], [], [], false⟩ ∧
    (A.isPdo pkg = true → (ctxUpdate A s.ctx pkg).lastPdo = some pkg) ∧
    (A.isRdo pkg = true → (ctxUpdate A s.ctx pkg).lastRdo = some pkg) ∧
    (A.provideExt pkg = true → (ctxUpdate A s.ctx pkg).lastExt = some pkg) ∧
    (∀ rest : List (Bool × WorkerItem),
      workerRun A s ((true, WorkerItem.frame b t now) :: rest) =
        workerRun A { s with ctx := ctxUpdate A s.ctx pkg } rest) := by
  have hstep : workerStep A s true (WorkerItem.frame b t now) =
      ⟨{ s with ctx := ctxUpdate A s.ctx pkg }, [], [], [], false⟩ := by
    simp [workerStep, hdec, hpd]
  refine ⟨hstep, ?_, ?_, ?_, ?_⟩
  · intro h
    simp [ctxUpdate, h]
    split <;> split <;> simp
  · intro h
    simp [ctxUpdate, h]
    split <;> simp
  · intro h
    simp [ctxUpdate, h]
  · intro rest
    simp only [workerRun, hstep]
    cases workerRun A { s with ctx := ctxUpdate A s.ctx pkg } rest
    simp

/-- Witness for C2: a paused capability frame under `testAdapter` is dropped
but lands in the context slot consulted by the rest of the run. -/
theorem paused_control_context_witness :
    workerStep testAdapter initWorkerState true (WorkerItem.frame framePdo 1 1) =
      ⟨{ initWorkerState with ctx := ctxUpdate testAdapter initWorkerState.ctx pdoPkg },
        [], [], [], false⟩ ∧
    (ctxUpdate testAdapter initWorkerState.ctx pdoPkg).lastPdo = some pdoPkg ∧
    (∀ rest : List (Bool × WorkerItem),
      workerRun testAdapter initWorkerState ((true, WorkerItem.frame framePdo 1 1) :: rest) =
        workerRun testAdapter
          { initWorkerState with ctx := ctxUpdate testAdapter initWorkerState.ctx pdoPkg }
          rest) := by
  have hdec : testAdapter.decode framePdo initWorkerState.ctx = Except.ok ("ts", pdoPkg) := by
    simp [testAdapter, framePdo]
  have h := paused_control_context testAdapter initWorkerState framePdo 1 1 "ts" pdoPkg hdec rfl
  exact ⟨h.1, h.2.1 rfl, h.2.2.2.2⟩

/-- C9.  Every telemetry (`general`) frame decoded by the worker yields
exactly one enqueued sample whose `power` equals the absolute value of the
product of the very voltage and current carried by that sample (recomputed,
for every adapter, rather than read off the device report), and whose
high-frequency flag `update_plot` is unconditionally true. -/
theorem telemetry_power_recomputed (A : DecoderAdapter Pkg) (s : WorkerState Pkg)
    (p : Bool) (b : List ℕ) (t now : ℚ) (ts : String) (pkg : Pkg)
    (hdec : A.decode b s.ctx = Except.ok (ts, pkg))
    (hgen : A.classOf pkg = "general") :
    ∃ e : IVData, (workerStep A s p (WorkerItem.frame b t now)).iv = [e] ∧
      e.voltage = (A.voltageVal pkg).getD 0 ∧
      e.current = (A.currentVal pkg).getD 0 ∧
      e.power = |e.voltage * e.current| ∧
      e.updatePlot = true := by
  refine ⟨⟨t, (A.voltageVal pkg).getD 0, (A.currentVal pkg).getD 0,
      |(A.currentVal pkg).getD 0 * (A.voltageVal pkg).getD 0|,
      (A.cc1Val pkg).getD 0, (A.cc2Val pkg).getD 0, (A.dpVal pkg).getD 0,
      (A.dnVal pkg).getD 0, true,
      decide (now - s.lastGeneralTimestamp ≥ 1/10)⟩, ?_, rfl, rfl, ?_, rfl⟩
  · simp [workerStep, hdec, hgen]
  · simp [mul_comm]

/-- Witness for C9: a telemetry frame carrying 5.00 V and 1.50 A yields a
sample with `power = 7.50` and `update_plot = true`. -/
theorem telemetry_power_recomputed_witness :
    (∃ e : IVData,
      (workerStep testAdapter initWorkerState false (WorkerItem.frame frameGeneral 1 1)).iv = [e] ∧
      e.voltage = (testAdapter.voltageVal generalPkg).getD 0 ∧
      e.current = (testAdapter.currentVal generalPkg).getD 0 ∧
      e.power = |e.voltage * e.current| ∧
      e.updatePlot = true) ∧
    |((testAdapter.voltageVal generalPkg).getD 0) * ((testAdapter.currentVal generalPkg).getD 0)|
      = 15/2 := by
  constructor
  · exact telemetry_power_recomputed testAdapter initWorkerState false frameGeneral 1 1
      "ts" generalPkg (by simp [testAdapter, frameGeneral]) rfl
  · norm_num [testAdapter, generalPkg]

/-- C7.  Error taxonomy of the worker loop: a read/decode failure whose text
matches the fatal vocabulary (`'read error'` after lower-casing) stops the
loop, emits exactly one `device_disconnected` sentinel on the control
channel, and terminates — the rest of the schedule is never processed; any
other failure produces no sentinel and no state transition, and the loop
continues with the rest of the schedule after one fixed `0.01` s delay. -/
theorem error_taxonomy (A : DecoderAdapter Pkg) (s : WorkerState Pkg) (p : Bool)
    (m : String) (rest : List (Bool × WorkerItem)) :
    (isFatalError m = true →
      workerRun A s ((p, WorkerItem.exn m) :: rest) =
        ⟨[], [PDEntry.errorSentinel "device_disconnected"], [], s, true⟩) ∧
    (isFatalError m = false →
      workerRun A s ((p, WorkerItem.exn m) :: rest) =
        ⟨(workerRun A s rest).ivQueue, (workerRun A s rest).dataQueue,
         1/100 :: (workerRun A s rest).delays, (workerRun A s rest).final,
         (workerRun A s rest).stopped⟩) := by
  constructor
  · intro h
    simp [workerRun, workerStep, errorStep, h]
  · intro h
    simp [workerRun, workerStep, errorStep, h]

/-- Witness for C7: the concrete exception text "USB Read error: device
gone" is fatal and stops the run with one sentinel; "operation timed out" is
non-fatal and the run continues into the rest of the schedule. -/
theorem error_taxonomy_witness :
    isFatalError "USB Read error: device gone" = true ∧
    workerRun testAdapter initWorkerState
        [(false, WorkerItem.exn "USB Read error: device gone"),
         (false, WorkerItem.frame frameGeneral 1 1)] =
      ⟨[], [PDEntry.errorSentinel "device_disconnected"], [], initWorkerState, true⟩ ∧
    isFatalError "operation timed out" = false ∧
    workerRun testAdapter initWorkerState [(false, WorkerItem.exn "operation timed out")] =
      ⟨(workerRun testAdapter initWorkerState ([] : List (Bool × WorkerItem))).ivQueue,
       (workerRun testAdapter initWorkerState ([] : List (Bool × WorkerItem))).dataQueue,
       1/100 :: (workerRun testAdapter initWorkerState ([] : List (Bool × WorkerItem))).delays,
       (workerRun testAdapter initWorkerState ([] : List (Bool × WorkerItem))).final,
       (workerRun testAdapter initWorkerState ([] : List (Bool × WorkerItem))).stopped⟩ := by
  refine ⟨by decide, ?_, by decide, ?_⟩
  · exact (error_taxonomy testAdapter initWorkerState false "USB Read error: device gone"
      [(false, WorkerItem.frame frameGeneral 1 1)]).1 (by decide)
  · exact (error_taxonomy testAdapter initWorkerState false "operation timed out" []).2
      (by decide)

theorem workerStep_pause_core (A : DecoderAdapter Pkg) (s1 s2 : WorkerState Pkg)
    (p q : Bool) (it : WorkerItem)
    (hctx : s1.ctx = s2.ctx) (hgen : s1.lastGeneralTimestamp = s2.lastGeneralTimestamp) :
    (workerStep A s1 p it).iv = (workerStep A s2 q it).iv ∧
    (workerStep A s1 p it).stop = (workerStep A s2 q it).stop ∧
    (workerStep A s1 p it).state.ctx = (workerStep A s2 q it).state.ctx ∧
    (workerStep A s1 p it).state.lastGeneralTimestamp =
      (workerStep A s2 q it).state.lastGeneralTimestamp := by
  cases it with
  | exn m =>
    simp only [workerStep, errorStep]
    split <;> simp [hctx, hgen]
  | frame b t now =>
    simp only [workerStep, hctx]
    cases hd : A.decode b s2.ctx with
    | error m =>
      simp only [errorStep]
      split <;> simp [hctx, hgen]
    | ok v =>
      cases v with
      | mk ts pkg =>
        by_cases hg : A.classOf pkg = "general"
        · simp [hg, hgen]
        · by_cases hpd : A.classOf pkg = "pd"
          · simp only [hg, hpd, if_false, if_true, reduceIte]
            cases p <;> cases q <;> simp [hgen, hctx]
          · simp [hg, hpd, hgen, hctx]

theorem workerRun_ivQueue_pause_invariant (A : DecoderAdapter Pkg) :
    ∀ (items : List WorkerItem) (s1 s2 : WorkerState Pkg) (p q : Bool),
      s1.ctx = s2.ctx → s1.lastGeneralTimestamp = s2.lastGeneralTimestamp →
      (workerRun A s1 (items.map fun it => (p, it))).ivQueue =
      (workerRun A s2 (items.map fun it => (q, it))).ivQueue := by
  intro items
  induction items with
  | nil => intro s1 s2 p q _ _; rfl
  | cons it rest ih =>
    intro s1 s2 p q hctx hgen
    obtain ⟨hiv, hstop, hc2, hg2⟩ := workerStep_pause_core A s1 s2 p q it hctx hgen
    simp only [List.map_cons, workerRun]
    by_cases h : (workerStep A s1 p it).stop = true
    · rw [if_pos h, if_pos (hstop ▸ h)]
      simpa using hiv
    · rw [if_neg h, if_neg (hstop ▸ h)]
      simp only [hiv]
      simp [ih ((workerStep A s1 p it).state) ((workerStep A s2 q it).state) p q hc2 hg2, hiv]

theorem workerRun_paused_noMsg (A : DecoderAdapter Pkg) :
    ∀ (items : List WorkerItem) (s : WorkerState Pkg),
      ((workerRun A s (items.map fun it => (true, it))).dataQueue).filter
        (fun e => PDEntry.isMsg e) = [] := by
  intro items
  induction items with
  | nil => intro s; rfl
  | cons it rest ih =>
    intro s
    cases it with
    | exn m =>
      simp only [List.map_cons, workerRun, workerStep, errorStep]
      split
      · simp [PDEntry.isMsg]
      · simpa using ih s
    | frame b t now =>
      simp only [List.map_cons, workerRun, workerStep]
      cases hd : A.decode b s.ctx with
      | error m =>
        simp only [errorStep]
        split
        · simp [PDEntry.isMsg]
        · simpa using ih s
      | ok v =>
        cases v with
        | mk ts pkg =>
          by_cases hg : A.classOf pkg = "general"
          · simp [hg, ih]
          · by_cases hpd : A.classOf pkg = "pd"
            · simp [hg, hpd, ih]
            · simp [hg, hpd, ih]

/-- C3.  Pause correctness: over any run in which the shared pause flag
stays set, the control channel receives zero decoded-message entries however
many control frames arrive, while the telemetry events produced and enqueued
are exactly those of the same run with the pause flag clear; and on the
consumer side, `add_data_item` appends nothing while paused (not forced). -/
theorem pause_correctness (A : DecoderAdapter Pkg) (s : WorkerState Pkg)
    (items : List WorkerItem) :
    ((workerRun A s (items.map fun it => (true, it))).dataQueue).filter
      (fun e => PDEntry.isMsg e) = [] ∧
    (workerRun A s (items.map fun it => (true, it))).ivQueue =
      (workerRun A s (items.map fun it => (false, it))).ivQueue ∧
    (∀ (g : GuiState Pkg) (nowStr sop : String) (rev ppr pdr mt : Option String)
      (d : Pkg) (tsp : Option String), g.isPaused = true →
      addDataItem g nowStr sop rev ppr pdr mt d tsp false = g) := by
  refine ⟨workerRun_paused_noMsg A items s,
    workerRun_ivQueue_pause_invariant A items s s true false rfl rfl, ?_⟩
  intro g nowStr sop rev ppr pdr mt d tsp hp
  simp [addDataItem, hp]

/-- A concrete paused controller state for witnesses. -/
def pausedGui : GuiState TestPkg :=
  { deviceOpen := true, isPaused := true, awaitingAck := false, autostart := false,
    importMode := false, eggActivated := false, statusConnected := false,
    pauseFlag := some 1, worker := some initWorkerState, dataList := [],
    lastPdo := none, lastRdo := none, plotTimes := [], plotVoltage := [],
    plotCurrent := [], plotStartTime := none, markerEvents := [] }

/-- Witness for C3 on a concrete schedule of one telemetry and one control
frame, and on a concrete paused controller state. -/
theorem pause_correctness_witness :
    ((workerRun testAdapter initWorkerState
        ([WorkerItem.frame frameGeneral 1 1, WorkerItem.frame framePdo 2 2].map
          fun it => (true, it))).dataQueue).filter (fun e => PDEntry.isMsg e) = [] ∧
    (workerRun testAdapter initWorkerState
        ([WorkerItem.frame frameGeneral 1 1, WorkerItem.frame framePdo 2 2].map
          fun it => (true, it))).ivQueue =
      (workerRun testAdapter initWorkerState
        ([WorkerItem.frame frameGeneral 1 1, WorkerItem.frame framePdo 2 2].map
          fun it => (false, it))).ivQueue ∧
    pausedGui.isPaused = true ∧
    addDataItem pausedGui "now" "SOP" none none none (some "Request") pdoPkg none false =
      pausedGui := by
  have h := pause_correctness testAdapter initWorkerState
    [WorkerItem.frame frameGeneral 1 1, WorkerItem.frame framePdo 2 2]
  exact ⟨h.1, h.2.1, rfl, h.2.2 pausedGui "now" "SOP" none none none (some "Request")
    pdoPkg none rfl⟩

/-- The 100 ms low-frequency invariant over a list of (gate-clock time,
`update_iv_info` flag) pairs starting from baseline `L`: every flagged
emission is at least `0.1` s after the previous flagged emission (or after
the baseline for the first one). -/
def lfChainOk (L : ℚ) : List (ℚ × Bool) → Prop
  | [] => True
  | (t, true) :: rest => 1/10 ≤ t - L ∧ lfChainOk t rest
  | (_, false) :: rest => lfChainOk L rest

theorem workerRun_lfChain (A : DecoderAdapter Pkg) (p : Bool) :
    ∀ (gens : List (List ℕ × ℚ × ℚ)) (s : WorkerState Pkg),
      (∀ x ∈ gens, ∀ c : DecodeCtx Pkg,
        ∃ tp : String × Pkg, A.decode x.1 c = Except.ok tp ∧ A.classOf tp.2 = "general") →
      lfChainOk s.lastGeneralTimestamp
        (List.zip (gens.map fun x => x.2.2)
          ((workerRun A s (gens.map fun x => (p, WorkerItem.frame x.1 x.2.1 x.2.2))).ivQueue.map
            (fun e => e.updateIvInfo))) := by
  intro gens
  induction gens with
  | nil => intro s _; trivial
  | cons x rest ih =>
    intro s hall
    obtain ⟨⟨ts, pkg⟩, hdec, hgen0⟩ := hall x (by simp) s.ctx
    have hgen : A.classOf pkg = "general" := hgen0
    have hrest : ∀ y ∈ rest, ∀ c : DecodeCtx Pkg,
        ∃ tp : String × Pkg, A.decode y.1 c = Except.ok tp ∧ A.classOf tp.2 = "general" :=
      fun y hy => hall y (by simp [hy])
    by_cases hflag : (1 : ℚ)/10 ≤ x.2.2 - s.lastGeneralTimestamp
    · have hd : decide (x.2.2 - s.lastGeneralTimestamp ≥ 1/10) = true := by
        simpa using hflag
      have h2 := ih ⟨ctxUpdate A s.ctx pkg, s.lastPdo, s.lastRdo, x.2.2⟩ hrest
      simp only [List.map_cons, workerRun, workerStep, hdec, hgen, hd, if_true, if_false,
        Bool.false_eq_true, reduceIte, List.zip_cons_cons, List.nil_append,
        List.cons_append, lfChainOk]
      exact ⟨hflag, by simpa using h2⟩
    · have hd : decide (x.2.2 - s.lastGeneralTimestamp ≥ 1/10) = false := by
        simpa using hflag
      have h2 := ih ⟨ctxUpdate A s.ctx pkg, s.lastPdo, s.lastRdo, s.lastGeneralTimestamp⟩ hrest
      simp only [List.map_cons, workerRun, workerStep, hdec, hgen, hd, if_true, if_false,
        Bool.false_eq_true, reduceIte, List.zip_cons_cons, List.nil_append,
        List.cons_append, lfChainOk]
      simpa using h2

/-- C8.  Low-frequency down-sampling gate: over any all-telemetry schedule,
an enqueued event carries `update_iv_info = true` only when at least 100 ms
of gate-clock time elapsed since the previous event that carried it (or
since the initial `last_general_timestamp` baseline); in particular, of two
consecutive telemetry frames whose gate clocks are 30 ms apart, at most one
carries the flag. -/
theorem low_frequency_gate (A : DecoderAdapter Pkg) (p : Bool)
    (gens : List (List ℕ × ℚ × ℚ)) (s : WorkerState Pkg)
    (hall : ∀ x ∈ gens, ∀ c : DecodeCtx Pkg,
      ∃ tp : String × Pkg, A.decode x.1 c = Except.ok tp ∧ A.classOf tp.2 = "general")
    (b1 b2 : List ℕ) (t1 t2 n1 : ℚ)
    (h1 : ∀ c : DecodeCtx Pkg,
      ∃ tp : String × Pkg, A.decode b1 c = Except.ok tp ∧ A.classOf tp.2 = "general")
    (h2 : ∀ c : DecodeCtx Pkg,
      ∃ tp : String × Pkg, A.decode b2 c = Except.ok tp ∧ A.classOf tp.2 = "general") :
    lfChainOk s.lastGeneralTimestamp
      (List.zip (gens.map fun x => x.2.2)
        ((workerRun A s (gens.map fun x => (p, WorkerItem.frame x.1 x.2.1 x.2.2))).ivQueue.map
          (fun e => e.updateIvInfo))) ∧
    ((workerRun A s [(p, WorkerItem.frame b1 t1 n1),
        (p, WorkerItem.frame b2 t2 (n1 + 3/100))]).ivQueue.map
      (fun e => e.updateIvInfo)) ≠ [true, true] := by
  constructor
  · exact workerRun_lfChain A p gens s hall
  · have key := workerRun_lfChain A p [(b1, t1, n1), (b2, t2, n1 + 3/100)] s
      (by
        intro x hx c
        simp only [List.mem_cons, List.not_mem_nil, or_false] at hx
        rcases hx with h | h <;> subst h
        · exact h1 c
        · exact h2 c)
    simp only [List.map_cons, List.map_nil] at key
    intro hcontra
    rw [hcontra] at key
    simp only [List.zip_cons_cons, List.zip_nil_right, lfChainOk] at key
    obtain ⟨-, h2x, -⟩ := key
    linarith

/-- Witness for C8 with two concrete telemetry frames 30 ms apart under
`testAdapter`: the flag list of the two emitted events is not
`[true, true]`. -/
theorem low_frequency_gate_witness :
    lfChainOk (initWorkerState : WorkerState TestPkg).lastGeneralTimestamp
      (List.zip (([(frameGeneral, (1 : ℚ), (1 : ℚ))]).map fun x => x.2.2)
        ((workerRun testAdapter initWorkerState
          (([(frameGeneral, (1 : ℚ), (1 : ℚ))]).map
            fun x => (false, WorkerItem.frame x.1 x.2.1 x.2.2))).ivQueue.map
          (fun e => e.updateIvInfo))) ∧
    ((workerRun testAdapter initWorkerState
        [(false, WorkerItem.frame frameGeneral 1 1),
         (false, WorkerItem.frame frameGeneral 2 (1 + 3/100))]).ivQueue.map
      (fun e => e.updateIvInfo)) ≠ [true, true] := by
  have hg : ∀ c : DecodeCtx TestPkg, ∃ tp : String × TestPkg,
      testAdapter.decode frameGeneral c = Except.ok tp ∧ testAdapter.classOf tp.2 = "general" :=
    fun c => ⟨("ts", generalPkg), by simp [testAdapter, frameGeneral], rfl⟩
  exact low_frequency_gate testAdapter false
    [(frameGeneral, (1 : ℚ), (1 : ℚ))] initWorkerState
    (by
      intro x hx c
      simp only [List.mem_singleton] at hx
      subst hx
      exact hg c)
    frameGeneral frameGeneral 1 2 1 hg hg

theorem addDataItem_flags (g : GuiState Pkg) (nowStr sop : String)
    (rev ppr pdr mt : Option String) (d : Pkg) (tsp : Option String) (force : Bool) :
    (addDataItem g nowStr sop rev ppr pdr mt d tsp force).statusConnected = g.statusConnected ∧
    (addDataItem g nowStr sop rev ppr pdr mt d tsp force).isPaused = g.isPaused ∧
    (addDataItem g nowStr sop rev ppr pdr mt d tsp force).pauseFlag = g.pauseFlag ∧
    (addDataItem g nowStr sop rev ppr pdr mt d tsp force).autostart = g.autostart ∧
    (addDataItem g nowStr sop rev ppr pdr mt d tsp force).awaitingAck = g.awaitingAck := by
  simp only [addDataItem]
  split <;> simp

theorem appendMarkerEvent_flags (g : GuiState Pkg) (t : ℚ) (k : String) :
    (appendMarkerEvent g t k).statusConnected = g.statusConnected ∧
    (appendMarkerEvent g t k).isPaused = g.isPaused ∧
    (appendMarkerEvent g t k).pauseFlag = g.pauseFlag ∧
    (appendMarkerEvent g t k).autostart = g.autostart ∧
    (appendMarkerEvent g t k).awaitingAck = g.awaitingAck := by
  simp only [appendMarkerEvent]
  split
  · simp
  · split <;> simp

theorem consumeRun_errors_keep_unconnected (nowStr : String) :
    ∀ (evs : List (QueueEvent Pkg)) (g : GuiState Pkg), g.statusConnected = false →
      (∀ ev ∈ evs, ∃ e, ev = QueueEvent.pdErr e) →
      (consumeRun g nowStr evs).statusConnected = false := by
  intro evs
  induction evs with
  | nil => intro g hg _; exact hg
  | cons ev rest ih =>
    intro g hg hall
    obtain ⟨e, he⟩ := hall ev (by simp)
    subst he
    simp only [consumeRun]
    refine ih _ ?_ (fun x hx => hall x (by simp [hx]))
    simp only [consumeStep]
    by_cases h1 : e = "device_disconnected"
    · simp [h1, handleDeviceDisconnect, stopCollection]
    · by_cases h2 : listPrefixOf "connection_failed".data e.data = true
      · simp [h1, h2, handleConnectionFailed, stopCollection]
      · simp [h1, h2, hg]

/-- C4.  Connection-confirmation gating with a deferred auto-start latch:
from a freshly connecting state, no "connected" status is surfaced while
only error events are drained from the channels; and a resume request made
while still awaiting the first event is not applied but latched
(`autostart`), leaving the pause flag set — then the very first non-error
event drained from either channel surfaces the "connected" status and
applies the latched request: the pause flag is cleared, collection starts,
and the latch is consumed. -/
theorem connection_gating (g : GuiState Pkg) (nowStr : String) (confirm : Bool)
    (hopen : g.deviceOpen = true) (hawait : g.awaitingAck = true)
    (hpause : g.isPaused = true) (hflag : g.pauseFlag = some 1)
    (hsc : g.statusConnected = false) :
    (∀ evs : List (QueueEvent Pkg), (∀ ev ∈ evs, ∃ e, ev = QueueEvent.pdErr e) →
      (consumeRun g nowStr evs).statusConnected = false) ∧
    (pauseCollection g confirm).isPaused = true ∧
    (pauseCollection g confirm).pauseFlag = some 1 ∧
    (pauseCollection g confirm).autostart = true ∧
    (∀ d : PDData Pkg,
      (consumeStep (pauseCollection g confirm) nowStr (QueueEvent.pd d)).statusConnected = true ∧
      (consumeStep (pauseCollection g confirm) nowStr (QueueEvent.pd d)).isPaused = false ∧
      (consumeStep (pauseCollection g confirm) nowStr (QueueEvent.pd d)).pauseFlag = some 0 ∧
      (consumeStep (pauseCollection g confirm) nowStr (QueueEvent.pd d)).autostart = false ∧
      (consumeStep (pauseCollection g confirm) nowStr (QueueEvent.pd d)).awaitingAck = false) ∧
    (∀ d : IVData,
      (consumeStep (pauseCollection g confirm) nowStr (QueueEvent.iv d)).statusConnected = true ∧
      (consumeStep (pauseCollection g confirm) nowStr (QueueEvent.iv d)).isPaused = false ∧
      (consumeStep (pauseCollection g confirm) nowStr (QueueEvent.iv d)).pauseFlag = some 0 ∧
      (consumeStep (pauseCollection g confirm) nowStr (QueueEvent.iv d)).autostart = false ∧
      (consumeStep (pauseCollection g confirm) nowStr (QueueEvent.iv d)).awaitingAck = false) := by
  have hs1 : pauseCollection g confirm = { g with autostart := true } := by
    simp [pauseCollection, hpause, hawait]
  have hack : ackUpdate { g with autostart := true } =
      { g with statusConnected := true, awaitingAck := false, autostart := false,
               isPaused := false, pauseFlag := (g.pauseFlag.map fun _ => 0) } := by
    simp [ackUpdate, hopen, hawait]
  refine ⟨fun evs hall => consumeRun_errors_keep_unconnected nowStr evs g hsc hall,
    by simp [hs1, hpause], by simp [hs1, hflag], by simp [hs1], ?_, ?_⟩
  · intro d
    simp only [consumeStep, hs1, hack]
    cases hpdo : d.isPdo <;> cases hrdo : d.isRdo <;>
      simp [hpdo, hrdo, addDataItem_flags, appendMarkerEvent_flags, hflag]
  · intro d
    simp only [consumeStep, hs1, hack]
    cases hup : d.updatePlot <;> simp [hup, appendPlotPoint, hflag]

/-- A concrete controller state right after `connect_device`: open, paused,
awaiting the first event, shared pause flag at 1. -/
def connectingGui : GuiState TestPkg :=
  { pausedGui with awaitingAck := true }

/-- Witness for C4 at a concrete connecting state: one `connection_failed`
error event keeps the status unconnected, and after a latched resume the
first telemetry event unpauses the controller. -/
theorem connection_gating_witness :
    (∀ evs : List (QueueEvent TestPkg), (∀ ev ∈ evs, ∃ e, ev = QueueEvent.pdErr e) →
      (consumeRun connectingGui "now" evs).statusConnected = false) ∧
    (pauseCollection connectingGui true).isPaused = true ∧
    (pauseCollection connectingGui true).pauseFlag = some 1 ∧
    (pauseCollection connectingGui true).autostart = true ∧
    (consumeStep (pauseCollection connectingGui true) "now"
      (QueueEvent.iv ⟨1, 5, 3/2, 15/2, 0, 0, 0, 0, true, true⟩)).statusConnected = true ∧
    (consumeStep (pauseCollection connectingGui true) "now"
      (QueueEvent.iv ⟨1, 5, 3/2, 15/2, 0, 0, 0, 0, true, true⟩)).isPaused = false ∧
    (consumeStep (pauseCollection connectingGui true) "now"
      (QueueEvent.iv ⟨1, 5, 3/2, 15/2, 0, 0, 0, 0, true, true⟩)).pauseFlag = some 0 := by
  have h := connection_gating connectingGui "now" true rfl rfl rfl rfl rfl
  obtain ⟨ha, hb, hc, hd, -, hiv⟩ := h
  obtain ⟨i1, i2, i3, -, -⟩ := hiv ⟨1, 5, 3/2, 15/2, 0, 0, 0, 0, true, true⟩
  exact ⟨ha, hb, hc, hd, i1, i2, i3⟩

/-- C5 (amended).  Reconnect isolation after a fatal disconnect followed by
a confirmed `connect()`: the decode context of the new session is empty — a
fresh worker process starts from `initWorkerState`, whose rolling context is
`emptyCtx`, and the controller's quick-status snapshots are cleared — and,
provided the charting layer has been activated (the easter-egg developer
mode, which is the only path on which `connect_device` runs `_reset_plot`),
the telemetry ring buffer holds zero samples, its rebasing origin is unset
and its markers are gone, regardless of the prior session's contents. -/
theorem reconnect_isolation (g : GuiState Pkg) :
    (connectDevice (handleDeviceDisconnect g) true).lastPdo = none ∧
    (connectDevice (handleDeviceDisconnect g) true).lastRdo = none ∧
    (connectDevice (handleDeviceDisconnect g) true).worker = some initWorkerState ∧
    (initWorkerState : WorkerState Pkg).ctx = emptyCtx ∧
    (g.eggActivated = true →
      (connectDevice (handleDeviceDisconnect g) true).plotTimes = [] ∧
      (connectDevice (handleDeviceDisconnect g) true).plotVoltage = [] ∧
      (connectDevice (handleDeviceDisconnect g) true).plotCurrent = [] ∧
      (connectDevice (handleDeviceDisconnect g) true).plotStartTime = none ∧
      (connectDevice (handleDeviceDisconnect g) true).markerEvents = []) := by
  by_cases he : g.dataList.isEmpty <;> by_cases hegg : g.eggActivated <;>
    simp [connectDevice, handleDeviceDisconnect, stopCollection, clearList, resetPlot,
      he, hegg, initWorkerState]

/-- A stale prior-session controller state with the chart never activated:
the ring buffer still holds a sample and an origin. -/
def staleGui : GuiState TestPkg :=
  { pausedGui with
    eggActivated := false, plotTimes := [5], plotVoltage := [5],
    plotCurrent := [1], plotStartTime := some 2, markerEvents := [(1, "pdo")] }

/-- The same stale state with the chart activated. -/
def staleGuiEgg : GuiState TestPkg := { staleGui with eggActivated := true }

/-- Counterexample to C5 as stated: with the charting layer never activated
(`_egg_activated = False`), `connect_device` skips `_reset_plot`, so after a
fatal disconnect and a confirmed reconnect the telemetry ring buffer still
holds the prior session's sample — it is not empty. -/
theorem reconnect_isolation_counterexample :
    (connectDevice (handleDeviceDisconnect staleGui) true).plotTimes ≠ [] := by
  simp [connectDevice, handleDeviceDisconnect, stopCollection, clearList, resetPlot,
    staleGui, pausedGui]

/-- Witness for C5 (amended) at the concrete stale state with the chart
activated. -/
theorem reconnect_isolation_witness :
    (connectDevice (handleDeviceDisconnect staleGuiEgg) true).lastPdo = none ∧
    (connectDevice (handleDeviceDisconnect staleGuiEgg) true).worker =
      some initWorkerState ∧
    (initWorkerState : WorkerState TestPkg).ctx = emptyCtx ∧
    (connectDevice (handleDeviceDisconnect staleGuiEgg) true).plotTimes = [] ∧
    (connectDevice (handleDeviceDisconnect staleGuiEgg) true).plotStartTime = none := by
  have h := reconnect_isolation staleGuiEgg
  have hegg := h.2.2.2.2 rfl
  exact ⟨h.1, h.2.2.1, h.2.2.2.1, hegg.1, hegg.2.2.2.1⟩

/-- C10.  A capability/request marker arriving before any telemetry sample
of the session (rebasing origin still unset) is silently discarded — the
marker store is unchanged; once a telemetry sample exists the origin is set
to its absolute time and a marker is recorded with `relativeTime` equal to
its absolute time minus that origin. -/
theorem marker_requires_origin (g : GuiState Pkg) (t t0 v i : ℚ) (kind : String)
    (hkind : kind = "pdo" ∨ kind = "rdo") :
    (g.plotStartTime = none → appendMarkerEvent g t kind = g) ∧
    (∀ o : ℚ, g.plotStartTime = some o →
      (appendMarkerEvent g t kind).markerEvents = g.markerEvents ++ [(t - o, kind)]) ∧
    (g.plotStartTime = none →
      (appendPlotPoint g t0 v i).plotStartTime = some t0 ∧
      (appendMarkerEvent (appendPlotPoint g t0 v i) t kind).markerEvents =
        g.markerEvents ++ [(t - t0, kind)]) := by
  have hk : ¬(kind ≠ "pdo" ∧ kind ≠ "rdo") := by
    rcases hkind with h | h <;> simp [h]
  refine ⟨?_, ?_, ?_⟩
  · intro h0
    simp [appendMarkerEvent, hk, h0]
  · intro o ho
    simp [appendMarkerEvent, hk, ho]
  · intro h0
    constructor
    · simp [appendPlotPoint, h0]
    · simp [appendMarkerEvent, appendPlotPoint, hk, h0]

/-- Witness for C10 at a concrete origin-less state: a `pdo` marker at time
4 is discarded; after a telemetry sample at time 3, the same marker is
stored with relative time `4 - 3`. -/
theorem marker_requires_origin_witness :
    appendMarkerEvent pausedGui 4 "pdo" = pausedGui ∧
    (appendPlotPoint pausedGui 3 5 1).plotStartTime = some 3 ∧
    (appendMarkerEvent (appendPlotPoint pausedGui 3 5 1) 4 "pdo").markerEvents =
      pausedGui.markerEvents ++ [(4 - 3, "pdo")] := by
  have h := marker_requires_origin pausedGui 4 3 5 1 "pdo" (Or.inl rfl)
  exact ⟨h.1 rfl, (h.2.2 rfl).1, (h.2.2 rfl).2⟩

end WitrnPD
